import Mathlib

/-!
Verification of the core of the AICG WebGPU SDF scene editor: the
distance-field scene query and ray marcher of
`src/shaders/raymarch_basic.wgsl`, the object-ID encoding of
`src/shaders/id_pick.wgsl`, and the picking / dragging logic of
`src/object_picker.js`.  WGSL `f32` values are modelled as real numbers,
`vec3<f32>` as a record of three reals; the bounded GPU loops become
fuel-indexed recursions with the source's exact step counts.
-/

/-- Primitive type of a pickable object: sphere, box or torus. -/
inductive PrimType where
  | sphere
  | box
  | torus
deriving DecidableEq

instance : Fintype PrimType :=
  ⟨⟨{PrimType.sphere, PrimType.box, PrimType.torus}, by decide⟩,
   by intro x; cases x <;> decide⟩

/-- Pick-pass ObjectID assigned by the scene query of
`src/shaders/id_pick.wgsl` (`get_dist`, lines 79-116): sphere slot `i` is
tagged `i + 1`, box slot `i` is tagged `i + 11`, torus slot `i` is tagged
`i + 21`; the ground plane keeps ID `0`. -/
def encodeID : PrimType → ℕ → ℕ
  | PrimType.sphere, i => i + 1
  | PrimType.box, i => i + 11
  | PrimType.torus, i => i + 21

/-- ID decoder of `src/object_picker.js` (`decodeID`): `0` is background or
plane, IDs 1-10 are spheres, 11-20 boxes, 21-30 tori, anything else is no
object. -/
def decodeID (id : ℕ) : Option (PrimType × ℕ) :=
  if id = 0 then none
  else if 1 ≤ id ∧ id ≤ 10 then some (PrimType.sphere, id - 1)
  else if 11 ≤ id ∧ id ≤ 20 then some (PrimType.box, id - 11)
  else if 21 ≤ id ∧ id ≤ 30 then some (PrimType.torus, id - 21)
  else none

/-- Scene-buffer float offset of an object's center, from
`src/object_picker.js` (`getObjectPosition` / `setObjectPosition`):
header of 4 floats, then 10 spheres of 8 floats, then 10 boxes of 12
floats, then tori of 12 floats. -/
def baseOffset : PrimType → ℕ → ℕ
  | PrimType.sphere, i => 4 + i * 8
  | PrimType.box, i => 4 + 80 + i * 12
  | PrimType.torus, i => 4 + 80 + 120 + i * 12

noncomputable section

/-- `vec3<f32>` of WGSL, modelled over the reals. -/
structure Vec3 where
  x : ℝ
  y : ℝ
  z : ℝ

def Vec3.add (a b : Vec3) : Vec3 := ⟨a.x + b.x, a.y + b.y, a.z + b.z⟩

def Vec3.sub (a b : Vec3) : Vec3 := ⟨a.x - b.x, a.y - b.y, a.z - b.z⟩

def Vec3.smul (c : ℝ) (v : Vec3) : Vec3 := ⟨c * v.x, c * v.y, c * v.z⟩

def Vec3.dot (a b : Vec3) : ℝ := a.x * b.x + a.y * b.y + a.z * b.z

def Vec3.length (v : Vec3) : ℝ := Real.sqrt (Vec3.dot v v)

def Vec3.cross (a b : Vec3) : Vec3 :=
  ⟨a.y * b.z - a.z * b.y, a.z * b.x - a.x * b.z, a.x * b.y - a.y * b.x⟩

/-- WGSL `normalize(v) = v / length(v)`. -/
def Vec3.normalize (v : Vec3) : Vec3 := Vec3.smul (1 / Vec3.length v) v

/-- WGSL scalar `mix(a, b, h) = a * (1 - h) + b * h`. -/
def mixf (a b h : ℝ) : ℝ := a * (1 - h) + b * h

/-- Componentwise WGSL `mix` on vectors. -/
def mix3 (a b : Vec3) (h : ℝ) : Vec3 := ⟨mixf a.x b.x h, mixf a.y b.y h, mixf a.z b.z h⟩

/-- WGSL `clamp(x, lo, hi) = min(max(x, lo), hi)`. -/
def clampf (x lo hi : ℝ) : ℝ := min (max x lo) hi

/-- Coordinate clamp of `src/object_picker.js` `readPixel`: the requested
coordinate is floored and clamped into `[0, texSize - 1]` where
`texSize = max 1 storedSize`, before the 1x1 texture copy is issued. -/
def clampCoord (c : ℝ) (size : ℤ) : ℤ := max 0 (min ⌊c⌋ (max 1 size - 1))

-- Constants of src/shaders/raymarch_basic.wgsl.

def MAX_DIST : ℝ := 100.0

def SURF_DIST : ℝ := 0.001

def MAX_STEPS : ℕ := 256

def MAT_PLANE : ℝ := 0

def MAT_SPHERE : ℝ := 1

def MAT_BOX : ℝ := 2

def MAT_TORUS : ℝ := 3

def MAT_SKY_COLOR : Vec3 := ⟨0.7, 0.8, 0.9⟩

-- SDF primitives of src/shaders/raymarch_basic.wgsl.

def sd_sphere (p : Vec3) (r : ℝ) : ℝ := p.length - r

def sd_box (p b : Vec3) : ℝ :=
  let q : Vec3 := ⟨|p.x| - b.x, |p.y| - b.y, |p.z| - b.z⟩
  Vec3.length ⟨max q.x 0, max q.y 0, max q.z 0⟩ + min (max q.x (max q.y q.z)) 0

def sd_torus (p : Vec3) (t : ℝ × ℝ) : ℝ :=
  let qx := Real.sqrt (p.x * p.x + p.z * p.z) - t.1
  Real.sqrt (qx * qx + p.y * p.y) - t.2

def sd_plane (p n : Vec3) (h : ℝ) : ℝ := Vec3.dot p n + h

-- SDF operations of src/shaders/raymarch_basic.wgsl (lines 178-193).

def op_union (d1 d2 : ℝ) : ℝ := min d1 d2

def op_subtract (d1 d2 : ℝ) : ℝ := max (-d1) d2

def op_intersect (d1 d2 : ℝ) : ℝ := max d1 d2

def op_smooth_union (d1 d2 k : ℝ) : ℝ :=
  let h := clampf (0.5 + 0.5 * (d2 - d1) / k) 0 1
  mixf d2 d1 h - k * h * (1 - h)

-- Scene records of src/shaders/raymarch_basic.wgsl (padding fields dropped).

structure SphereP where
  center : Vec3
  radius : ℝ
  color : Vec3

structure BoxP where
  center : Vec3
  size : Vec3
  color : Vec3

structure TorusP where
  center : Vec3
  radii : ℝ × ℝ
  color : Vec3

/-- The scene uniform of `src/shaders/raymarch_basic.wgsl`: three counts and
three fixed-capacity slot arrays (capacities 3 / 2 / 2 in this shader),
modelled as total functions; only slots below the count are ever read. -/
structure SceneB where
  num_spheres : ℕ
  num_boxes : ℕ
  num_tori : ℕ
  spheres : ℕ → SphereP
  boxes : ℕ → BoxP
  tori : ℕ → TorusP

/-- Scene query of `src/shaders/raymarch_basic.wgsl` (`get_dist`, lines
197-238): running `(distance, material_id)` result, seeded with the
`(MAX_DIST, -1)` sentinel, then the ground plane, then a capacity- and
count-bounded union loop per primitive type, each active primitive tagged
`base + i * 0.1`. -/
def get_dist (s : SceneB) (p : Vec3) : ℝ × ℝ :=
  let res0 : ℝ × ℝ := (MAX_DIST, -1)
  let plane_dist := sd_plane p ⟨0, 1, 0⟩ 0.5
  let res1 := if plane_dist < res0.1 then (plane_dist, MAT_PLANE) else res0
  let res2 := (List.range (min s.num_spheres 3)).foldl (fun res i =>
    let sp := s.spheres i
    let sphere_dist := sd_sphere (p.sub sp.center) sp.radius
    if sphere_dist < res.1 then (sphere_dist, MAT_SPHERE + (i : ℝ) * 0.1) else res) res1
  let res3 := (List.range (min s.num_boxes 2)).foldl (fun res i =>
    let bx := s.boxes i
    let box_dist := sd_box (p.sub bx.center) bx.size
    if box_dist < res.1 then (box_dist, MAT_BOX + (i : ℝ) * 0.1) else res) res2
  (List.range (min s.num_tori 2)).foldl (fun res i =>
    let tr := s.tori i
    let torus_dist := sd_torus (p.sub tr.center) tr.radii
    if torus_dist < res.1 then (torus_dist, MAT_TORUS + (i : ℝ) * 0.1) else res) res3

/-- One fuel-indexed pass of the sphere-tracing loop of
`src/shaders/raymarch_basic.wgsl` (`ray_march`): advance by the scene
distance, record the tag, stop below `SURF_DIST` or beyond `MAX_DIST`. -/
def marchLoop (s : SceneB) (ro rd : Vec3) : ℕ → ℝ → ℝ → ℝ × ℝ
  | 0, d, mat_id => (d, mat_id)
  | n + 1, d, _ =>
    let dist_mat := get_dist s (ro.add (Vec3.smul d rd))
    if dist_mat.1 < SURF_DIST ∨ d + dist_mat.1 > MAX_DIST then (d + dist_mat.1, dist_mat.2)
    else marchLoop s ro rd n (d + dist_mat.1) dist_mat.2

/-- `ray_march` of `src/shaders/raymarch_basic.wgsl` (lines 241-257):
`MAX_STEPS = 256` iterations starting from `t = 0`, initial tag `-1`. -/
def ray_march (s : SceneB) (ro rd : Vec3) : ℝ × ℝ := marchLoop s ro rd MAX_STEPS 0 (-1)

/-- Central-difference normal of `src/shaders/raymarch_basic.wgsl`
(`get_normal`), epsilon `0.001`. -/
def get_normal (s : SceneB) (p : Vec3) : Vec3 :=
  Vec3.normalize
    ⟨(get_dist s (p.add ⟨0.001, 0, 0⟩)).1 - (get_dist s (p.sub ⟨0.001, 0, 0⟩)).1,
     (get_dist s (p.add ⟨0, 0.001, 0⟩)).1 - (get_dist s (p.sub ⟨0, 0.001, 0⟩)).1,
     (get_dist s (p.add ⟨0, 0, 0.001⟩)).1 - (get_dist s (p.sub ⟨0, 0, 0.001⟩)).1⟩

/-- `gamma_correct` of `src/shaders/raymarch_basic.wgsl`:
componentwise `pow(color, 1/2.2)`. -/
def gamma_correct (color : Vec3) : Vec3 :=
  ⟨color.x ^ ((1 : ℝ) / 2.2), color.y ^ ((1 : ℝ) / 2.2), color.z ^ ((1 : ℝ) / 2.2)⟩

/-- Material color lookup of `src/shaders/raymarch_basic.wgsl`
(`get_material_color`, lines 127-156): checkerboard for the plane; for a
primitive tag in a type band, recover the slot with
`i32(round((mat_id - base) * 10))` and return the stored color if the slot
is below the type's capacity; grey fallback otherwise.  WGSL `i32(x) % 2`
is a truncated remainder, hence `Int.tmod`. -/
def get_material_color (s : SceneB) (mat_id : ℝ) (p : Vec3) : Vec3 :=
  if mat_id = MAT_PLANE then
    (if Int.tmod (⌊p.x⌋ + ⌊p.z⌋) 2 = 0 then ⟨0.9, 0.9, 0.9⟩ else ⟨0.2, 0.2, 0.2⟩)
  else if MAT_SPHERE ≤ mat_id ∧ mat_id < MAT_SPHERE + 1 then
    (let index := round ((mat_id - MAT_SPHERE) * 10)
     if 0 ≤ index ∧ index < 3 then (s.spheres index.toNat).color else ⟨0.5, 0.5, 0.5⟩)
  else if MAT_BOX ≤ mat_id ∧ mat_id < MAT_BOX + 1 then
    (let index := round ((mat_id - MAT_BOX) * 10)
     if 0 ≤ index ∧ index < 2 then (s.boxes index.toNat).color else ⟨0.5, 0.5, 0.5⟩)
  else if MAT_TORUS ≤ mat_id ∧ mat_id < MAT_TORUS + 1 then
    (let index := round ((mat_id - MAT_TORUS) * 10)
     if 0 ≤ index ∧ index < 2 then (s.tori index.toNat).color else ⟨0.5, 0.5, 0.5⟩)
  else ⟨0.5, 0.5, 0.5⟩

/-- Uniform block consumed by the shaders (camera and viewport state). -/
structure Uniforms where
  resolution : ℝ × ℝ
  time : ℝ
  cameraYaw : ℝ
  cameraPitch : ℝ
  cameraDistance : ℝ
  cameraTarget : Vec3

/-- `fs_main` of `src/shaders/raymarch_basic.wgsl` (lines 45-104): build the
camera ray from the uniforms, march it, and either shade the hit
(diffuse + shadow + fog, then gamma) or return the gamma-corrected sky
gradient.  The returned pair is the `vec4` (rgb, alpha). -/
def fs_main (u : Uniforms) (s : SceneB) (fragCoord : ℝ × ℝ) : Vec3 × ℝ :=
  let m := min u.resolution.1 u.resolution.2
  let uv : ℝ × ℝ :=
    ((fragCoord.1 - u.resolution.1 * 0.5) / m, (fragCoord.2 - u.resolution.2 * 0.5) / m)
  let cam_pos :=
    (Vec3.smul u.cameraDistance
      ⟨Real.sin u.cameraYaw * Real.cos u.cameraPitch, Real.sin u.cameraPitch,
        Real.cos u.cameraYaw * Real.cos u.cameraPitch⟩).add u.cameraTarget
  let cam_forward := Vec3.normalize (u.cameraTarget.sub cam_pos)
  let cam_right := Vec3.normalize (Vec3.cross cam_forward ⟨0, 1, 0⟩)
  let cam_up := Vec3.cross cam_right cam_forward
  let rd := Vec3.normalize
    (((Vec3.smul uv.1 cam_right).sub (Vec3.smul uv.2 cam_up)).add (Vec3.smul 1.5 cam_forward))
  let result := ray_march s cam_pos rd
  if result.1 < MAX_DIST then
    let hit_pos := cam_pos.add (Vec3.smul result.1 rd)
    let normal := get_normal s hit_pos
    let light_pos : Vec3 := ⟨2, 5, -1⟩
    let light_dir := Vec3.normalize (light_pos.sub hit_pos)
    let diffuse := max (Vec3.dot normal light_dir) 0
    let shadow_origin := hit_pos.add (Vec3.smul 0.01 normal)
    let shadow_result := ray_march s shadow_origin light_dir
    let shadow := if shadow_result.1 > Vec3.length (light_pos.sub shadow_origin) then (1 : ℝ) else 0.3
    let ambient : ℝ := 0.2
    let albedo := get_material_color s result.2 hit_pos
    let phong := Vec3.smul (ambient + diffuse * shadow * 0.8) albedo
    let fog := Real.exp (-result.1 * 0.02)
    let color := mix3 MAT_SKY_COLOR phong fog
    (gamma_correct color, 1)
  else
    let sky := mix3 MAT_SKY_COLOR (Vec3.smul 0.9 MAT_SKY_COLOR) (uv.2 * 0.5 + 0.5)
    (gamma_correct sky, 1)

-- Specification-side decomposition of the shading pass (the words of the
-- claim about fs_main, to be compared with the source definition above).

/-- Screen-space uv of a fragment, as computed at the top of `fs_main`. -/
def uvOf (u : Uniforms) (fragCoord : ℝ × ℝ) : ℝ × ℝ :=
  let m := min u.resolution.1 u.resolution.2
  ((fragCoord.1 - u.resolution.1 * 0.5) / m, (fragCoord.2 - u.resolution.2 * 0.5) / m)

/-- Orbit-camera position derived from the uniforms in `fs_main`. -/
def camPosOf (u : Uniforms) : Vec3 :=
  (Vec3.smul u.cameraDistance
    ⟨Real.sin u.cameraYaw * Real.cos u.cameraPitch, Real.sin u.cameraPitch,
      Real.cos u.cameraYaw * Real.cos u.cameraPitch⟩).add u.cameraTarget

/-- Camera ray direction derived from the uniforms in `fs_main`. -/
def rayDirOf (u : Uniforms) (fragCoord : ℝ × ℝ) : Vec3 :=
  let uv := uvOf u fragCoord
  let cam_pos := camPosOf u
  let cam_forward := Vec3.normalize (u.cameraTarget.sub cam_pos)
  let cam_right := Vec3.normalize (Vec3.cross cam_forward ⟨0, 1, 0⟩)
  let cam_up := Vec3.cross cam_right cam_forward
  Vec3.normalize
    (((Vec3.smul uv.1 cam_right).sub (Vec3.smul uv.2 cam_up)).add (Vec3.smul 1.5 cam_forward))

/-- The vertical sky-gradient blend of the two fixed sky colors
`MAT_SKY_COLOR` and `MAT_SKY_COLOR * 0.9`, weighted by `uv.y * 0.5 + 0.5`. -/
def skyGradientSpec (uv : ℝ × ℝ) : Vec3 :=
  mix3 MAT_SKY_COLOR (Vec3.smul 0.9 MAT_SKY_COLOR) (uv.2 * 0.5 + 0.5)

/-- Shading described by the specification, as a function of the march
result `res = (t, tag)`: on a miss (`t` at or beyond `MAX_DIST`) the
gamma-corrected sky gradient; on a hit the gamma-corrected fog blend
`mix(sky, albedo * (ambient + diffuse * shadow * 0.8), exp(-t * 0.02))`,
where `shadow` is `1.0` exactly when the offset shadow march travels
strictly beyond the light's distance (i.e. reaches the light without
hitting geometry first) and `0.3` otherwise. -/
def shadeSpec (s : SceneB) (ro rd : Vec3) (uv : ℝ × ℝ) (res : ℝ × ℝ) : Vec3 × ℝ :=
  if res.1 < MAX_DIST then
    let hit_pos := ro.add (Vec3.smul res.1 rd)
    let normal := get_normal s hit_pos
    let light_pos : Vec3 := ⟨2, 5, -1⟩
    let light_dir := Vec3.normalize (light_pos.sub hit_pos)
    let diffuse := max (Vec3.dot normal light_dir) 0
    let shadow_origin := hit_pos.add (Vec3.smul 0.01 normal)
    let shadow_result := ray_march s shadow_origin light_dir
    let shadow := if shadow_result.1 > Vec3.length (light_pos.sub shadow_origin) then (1 : ℝ) else 0.3
    let ambient : ℝ := 0.2
    let albedo := get_material_color s res.2 hit_pos
    let phong := Vec3.smul (ambient + diffuse * shadow * 0.8) albedo
    let fog := Real.exp (-res.1 * 0.02)
    (gamma_correct (mix3 MAT_SKY_COLOR phong fog), 1)
  else
    (gamma_correct (skyGradientSpec uv), 1)

-- Picker state and drag logic of src/object_picker.js.

/-- A selected object reference: type and slot index. -/
structure PickObj where
  ptype : PrimType
  index : ℕ

/-- The drag plane recorded at selection time (object center, camera
forward). -/
structure DragPlane where
  point : Vec3
  normal : Vec3

/-- The mutable state of `ObjectPicker` that `handleDrag` touches: the
selection, the drag plane and the scene float buffer. -/
structure PickerState where
  selectedObject : Option PickObj
  dragPlane : Option DragPlane
  sceneData : ℕ → ℝ

/-- `getObjectPosition` of `src/object_picker.js`: read the three center
floats at the object's base offset. -/
def getObjectPosition (st : PickerState) (obj : PickObj) : Vec3 :=
  ⟨st.sceneData (baseOffset obj.ptype obj.index),
   st.sceneData (baseOffset obj.ptype obj.index + 1),
   st.sceneData (baseOffset obj.ptype obj.index + 2)⟩

/-- `setObjectPosition` of `src/object_picker.js`: write the three center
floats at the object's base offset, leaving every other entry alone. -/
def setObjectPosition (st : PickerState) (obj : PickObj) (pos : Vec3) : PickerState :=
  { st with sceneData := fun j =>
      if j = baseOffset obj.ptype obj.index then pos.x
      else if j = baseOffset obj.ptype obj.index + 1 then pos.y
      else if j = baseOffset obj.ptype obj.index + 2 then pos.z
      else st.sceneData j }

/-- `handleDrag` of `src/object_picker.js` (lines 345-393): bail out with no
write when nothing is selected or no drag plane is recorded; otherwise
flatten the camera forward to the horizontal plane, rotate it 90 degrees
into a right vector (normalized only when its length exceeds `0.001`),
scale the screen deltas by `0.002` times the camera's distance from the
origin, and write back `current + right * dx` on x/z and `- up.y * dy` on
y.  Returns the new state and the new position (if any). -/
def handleDrag (st : PickerState) (deltaX deltaY : ℝ) (cameraPos cameraDir : Vec3) :
    PickerState × Option Vec3 :=
  match st.selectedObject, st.dragPlane with
  | some obj, some _ =>
    let currentPos := getObjectPosition st obj
    let right0 : Vec3 := ⟨cameraDir.z, 0, -cameraDir.x⟩
    let rightLen := Real.sqrt (right0.x * right0.x + right0.z * right0.z)
    let right := if rightLen > 0.001 then ⟨right0.x / rightLen, 0, right0.z / rightLen⟩ else right0
    let cameraDistance :=
      Real.sqrt (cameraPos.x * cameraPos.x + cameraPos.y * cameraPos.y + cameraPos.z * cameraPos.z)
    let sensitivity : ℝ := 0.002
    let dx := deltaX * sensitivity * cameraDistance
    let dy := deltaY * sensitivity * cameraDistance
    let newPos : Vec3 :=
      ⟨currentPos.x + right.x * dx, currentPos.y - 1 * dy, currentPos.z + right.z * dx⟩
    (setObjectPosition st obj newPos, some newPos)
  | _, _ => (st, none)

-- Spec-modelled CSG evaluation with per-primitive blend modes.

/-- CSG blend mode of a primitive (README: Normal, Smooth Union, Subtract,
Intersect, XOR). -/
inductive BlendMode where
  | union
  | smoothUnion
  | subtract
  | intersect
  | xorOp
deriving DecidableEq

/-- Shape parameters of a moded primitive. -/
inductive MShape where
  | msphere (center : Vec3) (radius : ℝ)
  | mbox (center : Vec3) (size : Vec3)
  | mtorus (center : Vec3) (radii : ℝ × ℝ)

/-- Modelled from the spec: a primitive record of the scene shader embedded
in `index.html`, which is not under `src/` (the README documents its
`blend_mode` and `blend_amount` fields; `src/` only declares the CSG
operator functions).  A shape, a material tag, a CSG blend mode and a
blend-strength `k`. -/
structure MPrim where
  shape : MShape
  tag : ℝ
  mode : BlendMode
  k : ℝ

/-- Primitive-local signed distance of a moded primitive, using the SDF
primitives of `src/shaders/raymarch_basic.wgsl`. -/
def mshapeDist (sh : MShape) (p : Vec3) : ℝ :=
  match sh with
  | MShape.msphere c r => sd_sphere (p.sub c) r
  | MShape.mbox c b => sd_box (p.sub c) b
  | MShape.mtorus c t => sd_torus (p.sub c) t

/-- Modelled from the spec (section 4.1 step 3), for the moded scene shader
of `index.html` missing from `src/`: combine one primitive's candidate
distance into the running `(distance, tag)` result according to its blend
mode.  Union keeps the smaller distance and its tag; Smooth Union applies
`op_smooth_union` with the primitive's `k`, the tag following the smaller
pre-blend distance; Subtract is `op_subtract(candidate, existing)` keeping
the existing tag; Intersect is `op_intersect(existing, candidate)`; XOR is
`max(min(a, b), -max(a, b))`.  The operator functions are the ones declared
in `src/shaders/raymarch_basic.wgsl`. -/
def combineCSG (p : Vec3) (res : ℝ × ℝ) (q : MPrim) : ℝ × ℝ :=
  let c := mshapeDist q.shape p
  match q.mode with
  | BlendMode.union => if c < res.1 then (c, q.tag) else res
  | BlendMode.smoothUnion =>
      (op_smooth_union c res.1 q.k, if c < res.1 then q.tag else res.2)
  | BlendMode.subtract => (op_subtract c res.1, res.2)
  | BlendMode.intersect =>
      (op_intersect res.1 c, if c < res.1 then q.tag else res.2)
  | BlendMode.xorOp => (max (min res.1 c) (-(max res.1 c)), res.2)

/-- Modelled from the spec (section 4.1), for the moded scene shader of
`index.html` missing from `src/`: start from the ground-plane result and
fold the active primitives in storage order through their CSG blend
modes. -/
def evaluateModed (prims : List MPrim) (p : Vec3) : ℝ × ℝ :=
  prims.foldl (combineCSG p) (sd_plane p ⟨0, 1, 0⟩ 0.5, MAT_PLANE)

-- Concrete scenes used by witnesses and counterexamples.

/-- Dummy box record (never read: used to pad scenes with zero boxes). -/
def boxZero : BoxP := ⟨⟨0, 0, 0⟩, ⟨0, 0, 0⟩, ⟨0, 0, 0⟩⟩

/-- Dummy torus record (never read: used to pad scenes with zero tori). -/
def torusZero : TorusP := ⟨⟨0, 0, 0⟩, (0, 0), ⟨0, 0, 0⟩⟩

/-- A scene with zero active primitives of every type. -/
def sceneEmpty : SceneB :=
  ⟨0, 0, 0, fun _ => ⟨⟨0, 0, 0⟩, 0, ⟨0, 0, 0⟩⟩, fun _ => boxZero, fun _ => torusZero⟩

/-- A scene holding exactly one sphere of radius `r` centered at the
origin. -/
def sceneOneSphere (r : ℝ) : SceneB :=
  ⟨1, 0, 0, fun _ => ⟨⟨0, 0, 0⟩, r, ⟨1, 0, 0⟩⟩, fun _ => boxZero, fun _ => torusZero⟩

/-- A concrete uniform block: 2x2 viewport, camera at yaw 0, pitch 0,
distance 1, orbiting the high target `(0, 200, 0)`. -/
def uC6 : Uniforms := ⟨(2, 2), 0, 0, 0, 1, ⟨0, 200, 0⟩⟩

end

-- Helper lemmas.

theorem Vec3.eq_of_comps {a b : Vec3} (hx : a.x = b.x) (hy : a.y = b.y) (hz : a.z = b.z) :
    a = b := by
  cases a; cases b; simp_all

theorem Vec3.sub_zero3 (v : Vec3) : v.sub ⟨0, 0, 0⟩ = v := by
  cases v; simp [Vec3.sub]

theorem Vec3.length_smul (c : ℝ) (v : Vec3) : (Vec3.smul c v).length = |c| * v.length := by
  unfold Vec3.length Vec3.smul Vec3.dot
  rw [show c * v.x * (c * v.x) + c * v.y * (c * v.y) + c * v.z * (c * v.z)
      = c ^ 2 * (v.x * v.x + v.y * v.y + v.z * v.z) by ring]
  rw [Real.sqrt_mul (sq_nonneg c), Real.sqrt_sq_eq_abs]

theorem normalize_of_dot_sq {v : Vec3} {c : ℝ} (hc : 0 ≤ c) (h : Vec3.dot v v = c ^ 2) :
    Vec3.normalize v = Vec3.smul (1 / c) v := by
  unfold Vec3.normalize Vec3.length
  rw [h, Real.sqrt_sq hc]

theorem fs_main_eq_shadeSpec (u : Uniforms) (s : SceneB) (fc : ℝ × ℝ) :
    fs_main u s fc =
      shadeSpec s (camPosOf u) (rayDirOf u fc) (uvOf u fc)
        (ray_march s (camPosOf u) (rayDirOf u fc)) := rfl

theorem marchLoop_succ (s : SceneB) (ro rd : Vec3) (n : ℕ) (d m : ℝ) :
    marchLoop s ro rd (n + 1) d m =
      (if (get_dist s (ro.add (Vec3.smul d rd))).1 < SURF_DIST ∨
          d + (get_dist s (ro.add (Vec3.smul d rd))).1 > MAX_DIST
       then (d + (get_dist s (ro.add (Vec3.smul d rd))).1, (get_dist s (ro.add (Vec3.smul d rd))).2)
       else marchLoop s ro rd n (d + (get_dist s (ro.add (Vec3.smul d rd))).1)
         (get_dist s (ro.add (Vec3.smul d rd))).2) := rfl

theorem marchLoop_step_continue (s : SceneB) (ro rd : Vec3) (n : ℕ) (d m gd gm : ℝ)
    (hg : get_dist s (ro.add (Vec3.smul d rd)) = (gd, gm))
    (h1 : ¬ gd < SURF_DIST) (h2 : ¬ d + gd > MAX_DIST) :
    marchLoop s ro rd (n + 1) d m = marchLoop s ro rd n (d + gd) gm := by
  rw [marchLoop_succ, hg]
  exact if_neg (not_or.mpr ⟨h1, h2⟩)

theorem marchLoop_step_stop (s : SceneB) (ro rd : Vec3) (n : ℕ) (d m gd gm : ℝ)
    (hg : get_dist s (ro.add (Vec3.smul d rd)) = (gd, gm))
    (h : gd < SURF_DIST ∨ d + gd > MAX_DIST) :
    marchLoop s ro rd (n + 1) d m = (d + gd, gm) := by
  rw [marchLoop_succ, hg]
  exact if_pos h

theorem shadeSpec_miss (s : SceneB) (ro rd : Vec3) (uv : ℝ × ℝ) (res : ℝ × ℝ)
    (h : ¬ res.1 < MAX_DIST) :
    shadeSpec s ro rd uv res = (gamma_correct (skyGradientSpec uv), 1) := by
  unfold shadeSpec
  exact if_neg h

theorem combineCSG_union (p : Vec3) (acc : ℝ × ℝ) (a : MPrim)
    (ha : a.mode = BlendMode.union) :
    combineCSG p acc a =
      if mshapeDist a.shape p < acc.1 then (mshapeDist a.shape p, a.tag) else acc := by
  unfold combineCSG
  rw [ha]

theorem combineCSG_intersect (p : Vec3) (acc : ℝ × ℝ) (a : MPrim)
    (ha : a.mode = BlendMode.intersect) :
    combineCSG p acc a =
      (op_intersect acc.1 (mshapeDist a.shape p),
        if mshapeDist a.shape p < acc.1 then a.tag else acc.2) := by
  unfold combineCSG
  rw [ha]

theorem get_dist_oneSphere_unfold (r : ℝ) (q : Vec3) :
    get_dist (sceneOneSphere r) q =
      (if sd_sphere (Vec3.sub q ⟨0, 0, 0⟩) r <
          (if sd_plane q ⟨0, 1, 0⟩ 0.5 < MAX_DIST then (sd_plane q ⟨0, 1, 0⟩ 0.5, MAT_PLANE)
           else (MAX_DIST, -1)).1
       then (sd_sphere (Vec3.sub q ⟨0, 0, 0⟩) r, MAT_SPHERE + ((0 : ℕ) : ℝ) * 0.1)
       else if sd_plane q ⟨0, 1, 0⟩ 0.5 < MAX_DIST then (sd_plane q ⟨0, 1, 0⟩ 0.5, MAT_PLANE)
            else (MAX_DIST, -1)) := rfl

theorem get_dist_oneSphere_sphereWins (r : ℝ) (q : Vec3)
    (h1 : q.length - r < sd_plane q ⟨0, 1, 0⟩ 0.5) (h2 : q.length - r < MAX_DIST) :
    get_dist (sceneOneSphere r) q = (q.length - r, MAT_SPHERE) := by
  rw [get_dist_oneSphere_unfold, Vec3.sub_zero3]
  rw [show sd_sphere q r = q.length - r from rfl]
  rw [show MAT_SPHERE + ((0 : ℕ) : ℝ) * 0.1 = MAT_SPHERE from by norm_num]
  by_cases hpd : sd_plane q ⟨0, 1, 0⟩ 0.5 < MAX_DIST
  · rw [if_pos hpd, if_pos h1]
  · rw [if_neg hpd, if_pos h2]

-- C1.

/-- Claim C1: for every type in {sphere, box, torus} and every index below
the capacity 10, decoding the pick-pass ObjectID produced for that object
(spheres as `index + 1`, boxes in the next band, tori in the next) yields
exactly the original (type, index); `decodeID 0` yields no object; and the
bands never overlap (the encoding is injective). -/
theorem id_encode_decode_roundtrip :
    (∀ t : PrimType, ∀ i : Fin 10, decodeID (encodeID t i) = some (t, (i : ℕ))) ∧
    decodeID 0 = none ∧
    (∀ t t' : PrimType, ∀ i i' : Fin 10,
      encodeID t i = encodeID t' i' → t = t' ∧ (i : ℕ) = (i' : ℕ)) := by
  decide

-- C9.

/-- Claim C9: for every requested pixel coordinate, including coordinates
outside the identifier texture's bounds, the readback clamp of
`readPixel` lands in the valid range `[0, texWidth - 1] x [0, texHeight - 1]`
(with `texSize = max 1 storedSize`), so the 1x1 copy never targets an
out-of-bounds texel. -/
theorem clampCoord_in_bounds (cx cy : ℝ) (w h : ℤ) :
    0 ≤ clampCoord cx w ∧ clampCoord cx w ≤ max 1 w - 1 ∧
    0 ≤ clampCoord cy h ∧ clampCoord cy h ≤ max 1 h - 1 := by
  unfold clampCoord
  refine ⟨le_max_left _ _, max_le ?_ (min_le_right _ _),
    le_max_left _ _, max_le ?_ (min_le_right _ _)⟩
  · have := le_max_left (1 : ℤ) w; omega
  · have := le_max_left (1 : ℤ) h; omega

-- C8.

/-- Counterexample to claim C8 as stated: at the point `(0, 100, 0)` the
plane distance is `100.5`, which loses to the `(MAX_DIST, -1)` sentinel the
running result is seeded with, so a zero-primitive `get_dist` does NOT
return the ground-plane result there. -/
theorem get_dist_zero_counts_cex :
    get_dist sceneEmpty ⟨0, 100, 0⟩ ≠ (sd_plane ⟨0, 100, 0⟩ ⟨0, 1, 0⟩ 0.5, MAT_PLANE) := by
  have h : get_dist sceneEmpty ⟨0, 100, 0⟩ = (MAX_DIST, -1) := by
    unfold get_dist sceneEmpty
    norm_num [sd_plane, Vec3.dot, MAX_DIST]
  rw [h]
  intro hc
  rw [Prod.ext_iff] at hc
  have h2 := hc.2
  norm_num [MAT_PLANE] at h2

/-- Claim C8 as amended: for every point whose ground-plane distance is
below `MAX_DIST`, a scene with all three counts zero evaluates to exactly
the ground-plane result `(dot(p, up) + 0.5, MAT_PLANE)`; at points whose
plane distance reaches `MAX_DIST` the `(MAX_DIST, -1)` sentinel survives
instead. -/
theorem get_dist_zero_counts (s : SceneB) (p : Vec3)
    (h0 : s.num_spheres = 0) (h1 : s.num_boxes = 0) (h2 : s.num_tori = 0)
    (hp : sd_plane p ⟨0, 1, 0⟩ 0.5 < MAX_DIST) :
    get_dist s p = (sd_plane p ⟨0, 1, 0⟩ 0.5, MAT_PLANE) := by
  unfold get_dist
  rw [h0, h1, h2]
  simp [hp]

/-- Witness for the amended C8: at the origin the zero-count scene
evaluates to `(0.5, MAT_PLANE)`. -/
theorem get_dist_zero_counts_witness : get_dist sceneEmpty ⟨0, 0, 0⟩ = (0.5, 0) := by
  have h := get_dist_zero_counts sceneEmpty ⟨0, 0, 0⟩ rfl rfl rfl
    (by norm_num [sd_plane, Vec3.dot, MAX_DIST])
  rw [h]
  norm_num [sd_plane, Vec3.dot, MAT_PLANE]

-- C3.

/-- Claim C3: for every primitive type and slot index below that type's
capacity in `raymarch_basic.wgsl` (3 spheres, 2 boxes, 2 tori), the
MaterialTag `base + i * 0.1` decodes back to slot `i` by rounding ten times
the in-band offset, and `get_material_color` on that tag returns exactly
the color stored for that primitive in the scene. -/
theorem material_tag_roundtrip :
    (∀ i : Fin 3, ∀ s : SceneB, ∀ p : Vec3,
      round ((MAT_SPHERE + (i : ℝ) * 0.1 - MAT_SPHERE) * 10) = (i : ℤ) ∧
      get_material_color s (MAT_SPHERE + (i : ℝ) * 0.1) p = (s.spheres i).color) ∧
    (∀ i : Fin 2, ∀ s : SceneB, ∀ p : Vec3,
      round ((MAT_BOX + (i : ℝ) * 0.1 - MAT_BOX) * 10) = (i : ℤ) ∧
      get_material_color s (MAT_BOX + (i : ℝ) * 0.1) p = (s.boxes i).color) ∧
    (∀ i : Fin 2, ∀ s : SceneB, ∀ p : Vec3,
      round ((MAT_TORUS + (i : ℝ) * 0.1 - MAT_TORUS) * 10) = (i : ℤ) ∧
      get_material_color s (MAT_TORUS + (i : ℝ) * 0.1) p = (s.tori i).color) := by
  refine ⟨?_, ?_, ?_⟩ <;> intro i s p <;> fin_cases i <;>
    constructor <;>
    (norm_num [get_material_color, MAT_PLANE, MAT_SPHERE, MAT_BOX, MAT_TORUS, round_eq];
      try rfl)

-- C10.

/-- Claim C10: `handleDrag` changes at most the three consecutive
`sceneData` entries holding the selected object's center, at the buffer
offset determined by its type and slot index; every other entry is
unchanged, and when no object is selected or no drag plane is recorded the
state is returned entirely unchanged. -/
theorem handleDrag_frame_effect (st : PickerState) (dX dY : ℝ) (cp cd : Vec3) :
    ((st.selectedObject = none ∨ st.dragPlane = none) → (handleDrag st dX dY cp cd).1 = st) ∧
    (∀ obj : PickObj, st.selectedObject = some obj →
      ∀ j : ℕ, j ≠ baseOffset obj.ptype obj.index →
        j ≠ baseOffset obj.ptype obj.index + 1 →
        j ≠ baseOffset obj.ptype obj.index + 2 →
        ((handleDrag st dX dY cp cd).1).sceneData j = st.sceneData j) := by
  cases hsel : st.selectedObject with
  | none =>
    refine ⟨fun _ => ?_, fun obj hobj => ?_⟩
    · simp [handleDrag, hsel]
    · exact absurd hobj (by simp)
  | some obj0 =>
    cases hplane : st.dragPlane with
    | none =>
      refine ⟨fun _ => ?_, fun obj hobj j h1 h2 h3 => ?_⟩ <;>
        simp [handleDrag, hsel, hplane]
    | some dp =>
      constructor
      · rintro (h | h) <;> exact absurd h (by simp)
      · intro obj hobj j h1 h2 h3
        injection hobj with hobj
        subst hobj
        simp only [handleDrag, hsel, hplane, setObjectPosition]
        rw [if_neg h1, if_neg h2, if_neg h3]

/-- Witness for C10: with a selected sphere in slot 0 (base offset 4), an
entry away from offsets 4..6 keeps its value, and with nothing selected the
state is untouched. -/
theorem handleDrag_frame_effect_witness :
    ((handleDrag ⟨some ⟨PrimType.sphere, 0⟩, some ⟨⟨0, 0, 0⟩, ⟨0, 0, 0⟩⟩, fun j => (j : ℝ)⟩
        1 1 ⟨0, 0, 0⟩ ⟨0, 0, 0⟩).1).sceneData 0 = 0 ∧
    (handleDrag ⟨none, none, fun j => (j : ℝ)⟩ 1 1 ⟨0, 0, 0⟩ ⟨0, 0, 0⟩).1 =
      ⟨none, none, fun j => (j : ℝ)⟩ := by
  constructor
  · have h := (handleDrag_frame_effect
      ⟨some ⟨PrimType.sphere, 0⟩, some ⟨⟨0, 0, 0⟩, ⟨0, 0, 0⟩⟩, fun j => (j : ℝ)⟩
      1 1 ⟨0, 0, 0⟩ ⟨0, 0, 0⟩).2 ⟨PrimType.sphere, 0⟩ rfl 0
      (by simp [baseOffset]) (by simp [baseOffset]) (by simp [baseOffset])
    rw [h]; norm_num
  · exact (handleDrag_frame_effect ⟨none, none, fun j => (j : ℝ)⟩ 1 1 ⟨0, 0, 0⟩ ⟨0, 0, 0⟩).1
      (Or.inl rfl)

-- C7.

/-- Claim C7: for a drag-move `(deltaX, deltaY)` with an object selected and
a drag plane recorded (and the flattened camera-right vector long enough to
be normalized, as the source guards), the new world position written back
is exactly `old + right * dx' - up * dy'`, where `right` is the camera
forward flattened to the horizontal plane, rotated 90 degrees and
normalized, `up = (0,1,0)`, `dx' = deltaX * 0.002 * |cameraPos|` and
`dy' = deltaY * 0.002 * |cameraPos|`. -/
theorem handleDrag_world_delta (st : PickerState) (obj : PickObj) (dp : DragPlane)
    (dX dY : ℝ) (cp cd : Vec3)
    (hsel : st.selectedObject = some obj) (hplane : st.dragPlane = some dp)
    (hlen : Real.sqrt (cd.z * cd.z + -cd.x * -cd.x) > 0.001) :
    (handleDrag st dX dY cp cd).2 =
      some (((getObjectPosition st obj).add
        (Vec3.smul (dX * 0.002 * Vec3.length cp) (Vec3.normalize ⟨cd.z, 0, -cd.x⟩))).sub
        (Vec3.smul (dY * 0.002 * Vec3.length cp) ⟨0, 1, 0⟩)) ∧
    (handleDrag st dX dY cp cd).1 =
      setObjectPosition st obj (((getObjectPosition st obj).add
        (Vec3.smul (dX * 0.002 * Vec3.length cp) (Vec3.normalize ⟨cd.z, 0, -cd.x⟩))).sub
        (Vec3.smul (dY * 0.002 * Vec3.length cp) ⟨0, 1, 0⟩)) := by
  have harg : cd.z * cd.z + 0 * 0 + -cd.x * -cd.x = cd.z * cd.z + -cd.x * -cd.x := by ring
  have hv : (((getObjectPosition st obj).add
        (Vec3.smul (dX * 0.002 * Vec3.length cp) (Vec3.normalize ⟨cd.z, 0, -cd.x⟩))).sub
        (Vec3.smul (dY * 0.002 * Vec3.length cp) ⟨0, 1, 0⟩)) =
      ⟨(getObjectPosition st obj).x +
          cd.z / Real.sqrt (cd.z * cd.z + -cd.x * -cd.x) * (dX * 0.002 * Vec3.length cp),
        (getObjectPosition st obj).y - 1 * (dY * 0.002 * Vec3.length cp),
        (getObjectPosition st obj).z +
          -cd.x / Real.sqrt (cd.z * cd.z + -cd.x * -cd.x) * (dX * 0.002 * Vec3.length cp)⟩ := by
    apply Vec3.eq_of_comps <;>
      simp [Vec3.add, Vec3.sub, Vec3.smul, Vec3.normalize, Vec3.length, Vec3.dot, harg] <;>
      ring
  rw [hv]
  simp only [handleDrag, hsel, hplane]
  rw [if_pos hlen]
  exact ⟨rfl, rfl⟩

/-- Witness for C7: selected sphere slot 0 at the origin, camera at
`(3,0,4)` (distance 5), camera forward `(0,0,-1)`, drag `(10, 0)`: the new
position is `(-0.1, 0, 0)`, i.e. it moved by `10 * 0.002 * 5` along the
right vector `(-1, 0, 0)`. -/
theorem handleDrag_world_delta_witness :
    (handleDrag ⟨some ⟨PrimType.sphere, 0⟩, some ⟨⟨0, 0, 0⟩, ⟨0, 0, 0⟩⟩, fun _ => 0⟩
        10 0 ⟨3, 0, 4⟩ ⟨0, 0, -1⟩).2 = some ⟨-0.1, 0, 0⟩ := by
  have h5 : Vec3.length ⟨3, 0, 4⟩ = 5 := by
    unfold Vec3.length Vec3.dot
    rw [show (3 : ℝ) * 3 + 0 * 0 + 4 * 4 = 5 ^ 2 by norm_num]
    exact Real.sqrt_sq (by norm_num)
  have h1 : Real.sqrt ((Vec3.mk 0 0 (-1)).z * (Vec3.mk 0 0 (-1)).z +
      -(Vec3.mk 0 0 (-1)).x * -(Vec3.mk 0 0 (-1)).x) > 0.001 := by
    norm_num
  have h := (handleDrag_world_delta
    ⟨some ⟨PrimType.sphere, 0⟩, some ⟨⟨0, 0, 0⟩, ⟨0, 0, 0⟩⟩, fun _ => 0⟩
    ⟨PrimType.sphere, 0⟩ ⟨⟨0, 0, 0⟩, ⟨0, 0, 0⟩⟩ 10 0 ⟨3, 0, 4⟩ ⟨0, 0, -1⟩ rfl rfl h1).1
  rw [h, h5]
  have hn : Vec3.normalize ⟨(Vec3.mk 0 0 (-1)).z, 0, -(Vec3.mk 0 0 (-1)).x⟩ =
      Vec3.mk (-1) 0 0 := by
    unfold Vec3.normalize Vec3.length Vec3.dot Vec3.smul
    norm_num
  apply congrArg
  rw [hn]
  apply Vec3.eq_of_comps <;>
    (simp [Vec3.add, Vec3.sub, Vec3.smul, getObjectPosition]; try norm_num)

-- C6.

/-- Claim C6 as amended: the shading output is fully determined by the hit
result — on a miss (`t` at or beyond `MAX_DIST`) the pixel is the
GAMMA-CORRECTED vertical sky-gradient blend of the two fixed sky colors; on
a hit it is the gamma-corrected fog blend
`mix(sky, albedo * (ambient + diffuse * shadow * 0.8), exp(-t * 0.02))`
with `shadow` equal to `1.0` when the offset shadow march travels beyond
the light's distance without hitting geometry first and `0.3` otherwise. -/
theorem fs_main_shade_decomposition (u : Uniforms) (s : SceneB) (fc : ℝ × ℝ) :
    fs_main u s fc =
      shadeSpec s (camPosOf u) (rayDirOf u fc) (uvOf u fc)
        (ray_march s (camPosOf u) (rayDirOf u fc)) := fs_main_eq_shadeSpec u s fc

/-- Counterexample to claim C6 as stated: at the concrete camera `uC6` over
the empty scene the march misses (t = 200 at the center pixel), yet the
rendered pixel is NOT the raw vertical sky-gradient blend — the source
gamma-corrects the sky gradient too, and `0.665 ^ (1/2.2) ≠ 0.665`. -/
theorem fs_main_miss_gamma_cex :
    ¬ (ray_march sceneEmpty (camPosOf uC6) (rayDirOf uC6 (1, 1))).1 < MAX_DIST ∧
    fs_main uC6 sceneEmpty (1, 1) ≠ (skyGradientSpec (uvOf uC6 (1, 1)), 1) := by
  have huv : uvOf uC6 (1, 1) = (0, 0) := by
    unfold uvOf uC6; norm_num
  have hcam : camPosOf uC6 = ⟨0, 200, 1⟩ := by
    unfold camPosOf uC6
    apply Vec3.eq_of_comps <;> simp [Vec3.add, Vec3.smul]
  have hrd : rayDirOf uC6 (1, 1) = ⟨0, 0, -1⟩ := by
    have hfsub : (uC6.cameraTarget).sub ⟨0, 200, 1⟩ = (⟨0, 0, -1⟩ : Vec3) := by
      unfold uC6; apply Vec3.eq_of_comps <;> simp [Vec3.sub]
    have hfwd : Vec3.normalize ⟨0, 0, -1⟩ = (⟨0, 0, -1⟩ : Vec3) := by
      rw [normalize_of_dot_sq (c := 1) (by norm_num) (by unfold Vec3.dot; norm_num)]
      apply Vec3.eq_of_comps <;> simp [Vec3.smul]
    have hcross1 : Vec3.cross ⟨0, 0, -1⟩ ⟨0, 1, 0⟩ = (⟨1, 0, 0⟩ : Vec3) := by
      apply Vec3.eq_of_comps <;> simp [Vec3.cross]
    have hright : Vec3.normalize ⟨1, 0, 0⟩ = (⟨1, 0, 0⟩ : Vec3) := by
      rw [normalize_of_dot_sq (c := 1) (by norm_num) (by unfold Vec3.dot; norm_num)]
      apply Vec3.eq_of_comps <;> simp [Vec3.smul]
    have hcross2 : Vec3.cross ⟨1, 0, 0⟩ ⟨0, 0, -1⟩ = (⟨0, 1, 0⟩ : Vec3) := by
      apply Vec3.eq_of_comps <;> simp [Vec3.cross]
    have hsum : ((Vec3.smul 0 ⟨1, 0, 0⟩).sub
        (Vec3.smul 0 ⟨0, 1, 0⟩)).add (Vec3.smul 1.5 ⟨0, 0, -1⟩) =
        (⟨0, 0, -1.5⟩ : Vec3) := by
      apply Vec3.eq_of_comps <;> (simp [Vec3.add, Vec3.sub, Vec3.smul]; try norm_num)
    have hlast : Vec3.normalize ⟨0, 0, -1.5⟩ = (⟨0, 0, -1⟩ : Vec3) := by
      rw [normalize_of_dot_sq (c := 1.5) (by norm_num) (by unfold Vec3.dot; norm_num)]
      apply Vec3.eq_of_comps <;> (simp [Vec3.smul]; try norm_num)
    unfold rayDirOf
    rw [huv, hcam]
    simp only [hfsub, hfwd, hcross1, hright, hcross2]
    rw [hsum, hlast]
  have hg1 : get_dist sceneEmpty ⟨0, 200, 1⟩ = (100, -1) := by
    unfold get_dist sceneEmpty
    norm_num [sd_plane, Vec3.dot, MAX_DIST]
  have hg2 : get_dist sceneEmpty ⟨0, 200, -99⟩ = (100, -1) := by
    unfold get_dist sceneEmpty
    norm_num [sd_plane, Vec3.dot, MAX_DIST]
  have hp1 : Vec3.add ⟨0, 200, 1⟩ (Vec3.smul 0 ⟨0, 0, -1⟩) = (⟨0, 200, 1⟩ : Vec3) := by
    apply Vec3.eq_of_comps <;> simp [Vec3.add, Vec3.smul]
  have hp2 : Vec3.add ⟨0, 200, 1⟩ (Vec3.smul 100 ⟨0, 0, -1⟩) = (⟨0, 200, -99⟩ : Vec3) := by
    apply Vec3.eq_of_comps <;> (simp [Vec3.add, Vec3.smul]; try norm_num)
  have hmarch : ray_march sceneEmpty ⟨0, 200, 1⟩ ⟨0, 0, -1⟩ = (200, -1) := by
    unfold ray_march MAX_STEPS
    rw [show (256 : ℕ) = 255 + 1 from rfl,
      marchLoop_step_continue sceneEmpty ⟨0, 200, 1⟩ ⟨0, 0, -1⟩ 255 0 (-1) 100 (-1)
        (by rw [hp1]; exact hg1) (by norm_num [SURF_DIST]) (by norm_num [MAX_DIST])]
    rw [show (0 : ℝ) + 100 = 100 from by norm_num]
    rw [show (255 : ℕ) = 254 + 1 from rfl,
      marchLoop_step_stop sceneEmpty ⟨0, 200, 1⟩ ⟨0, 0, -1⟩ 254 100 (-1) 100 (-1)
        (by rw [hp2]; exact hg2) (Or.inr (by norm_num [MAX_DIST]))]
    norm_num
  constructor
  · rw [hcam, hrd, hmarch]
    norm_num [MAX_DIST]
  · have hdecomp := fs_main_eq_shadeSpec uC6 sceneEmpty (1, 1)
    rw [hdecomp, hcam, hrd, hmarch, huv,
      shadeSpec_miss sceneEmpty ⟨0, 200, 1⟩ ⟨0, 0, -1⟩ (0, 0) (200, -1)
        (by norm_num [MAX_DIST])]
    have hsky : skyGradientSpec (0, 0) = (⟨0.665, 0.76, 0.855⟩ : Vec3) := by
      unfold skyGradientSpec MAT_SKY_COLOR
      apply Vec3.eq_of_comps <;> (simp [mix3, mixf, Vec3.smul]; norm_num)
    rw [hsky]
    intro hc
    rw [Prod.ext_iff] at hc
    have hx := congrArg Vec3.x hc.1
    unfold gamma_correct at hx
    simp only at hx
    have hlt : (0.665 : ℝ) < 0.665 ^ ((1 : ℝ) / 2.2) := by
      have h1 : (0.665 : ℝ) ^ (1 : ℝ) < 0.665 ^ ((1 : ℝ) / 2.2) :=
        Real.rpow_lt_rpow_of_exponent_gt (by norm_num) (by norm_num) (by norm_num)
      rwa [Real.rpow_one] at h1
    rw [hx] at hlt
    exact lt_irrefl _ hlt

-- C2.

/-- Claim C2 (spec-modelled evaluation, the moded scene shader living in
`index.html` outside `src/`): appending a primitive whose mode is Subtract
combines its candidate distance as `op_subtract(candidate, existing) =
max(-candidate, existing)` with the surviving tag taken from the existing
accumulated field, and appending a Smooth Union primitive yields the
polynomial smooth-min `op_smooth_union(candidate, existing, k)` with the
primitive's blend strength `k`. -/
theorem evaluateModed_subtract_smooth (ps : List MPrim) (q : MPrim) (p : Vec3) :
    (q.mode = BlendMode.subtract →
      evaluateModed (ps ++ [q]) p =
        (op_subtract (mshapeDist q.shape p) (evaluateModed ps p).1, (evaluateModed ps p).2)) ∧
    (q.mode = BlendMode.smoothUnion →
      (evaluateModed (ps ++ [q]) p).1 =
        op_smooth_union (mshapeDist q.shape p) (evaluateModed ps p).1 q.k) := by
  have happ : evaluateModed (ps ++ [q]) p = combineCSG p (evaluateModed ps p) q := by
    unfold evaluateModed
    rw [List.foldl_append, List.foldl_cons, List.foldl_nil]
  constructor
  · intro hmode
    rw [happ]
    unfold combineCSG
    rw [hmode]
  · intro hmode
    rw [happ]
    unfold combineCSG
    rw [hmode]

/-- Witness for C2: a single Subtract sphere of radius 1 at the origin,
evaluated at the origin: the plane start is `(0.5, MAT_PLANE)`, the
candidate is `-1`, and the combined result is
`(max 1 0.5, MAT_PLANE) = (1, MAT_PLANE)`. -/
theorem evaluateModed_subtract_smooth_witness :
    evaluateModed [⟨MShape.msphere ⟨0, 0, 0⟩ 1, MAT_SPHERE, BlendMode.subtract, 1⟩] ⟨0, 0, 0⟩ =
      (1, MAT_PLANE) := by
  have h := (evaluateModed_subtract_smooth []
    ⟨MShape.msphere ⟨0, 0, 0⟩ 1, MAT_SPHERE, BlendMode.subtract, 1⟩ ⟨0, 0, 0⟩).1 rfl
  rw [List.nil_append] at h
  rw [h]
  have hempty : evaluateModed [] ⟨0, 0, 0⟩ = (0.5, MAT_PLANE) := by
    unfold evaluateModed sd_plane Vec3.dot
    norm_num
  have hdist : mshapeDist (MShape.msphere ⟨0, 0, 0⟩ 1) ⟨0, 0, 0⟩ = -1 := by
    unfold mshapeDist sd_sphere Vec3.length Vec3.dot Vec3.sub
    norm_num
  rw [hempty, hdist]
  unfold op_subtract
  norm_num

-- C5.

/-- Counterexample to claim C5 as stated: two scenes with the same set of
active primitives, both in Union-or-Intersect modes (one Union sphere, one
Intersect sphere), evaluated at the same point, produce different
distances in the two storage orders: min/max folds do not commute with
each other. -/
theorem evaluateModed_mixed_order_cex :
    (evaluateModed
        [⟨MShape.msphere ⟨0, 0, 0⟩ 2, MAT_SPHERE, BlendMode.union, 1⟩,
         ⟨MShape.msphere ⟨0, 9, 0⟩ 1, MAT_SPHERE + 0.1, BlendMode.intersect, 1⟩] ⟨0, 3, 0⟩).1 ≠
    (evaluateModed
        [⟨MShape.msphere ⟨0, 9, 0⟩ 1, MAT_SPHERE + 0.1, BlendMode.intersect, 1⟩,
         ⟨MShape.msphere ⟨0, 0, 0⟩ 2, MAT_SPHERE, BlendMode.union, 1⟩] ⟨0, 3, 0⟩).1 := by
  have hlen3 : Vec3.length ⟨0, 3, 0⟩ = 3 := by
    unfold Vec3.length Vec3.dot
    rw [show (0 : ℝ) * 0 + 3 * 3 + 0 * 0 = 3 ^ 2 by norm_num,
      Real.sqrt_sq (by norm_num : (0 : ℝ) ≤ 3)]
  have hlen6 : Vec3.length ⟨0, -6, 0⟩ = 6 := by
    unfold Vec3.length Vec3.dot
    rw [show (0 : ℝ) * 0 + -6 * -6 + 0 * 0 = 6 ^ 2 by norm_num,
      Real.sqrt_sq (by norm_num : (0 : ℝ) ≤ 6)]
  have hdA : mshapeDist (MShape.msphere ⟨0, 0, 0⟩ 2) ⟨0, 3, 0⟩ = 1 := by
    show sd_sphere (Vec3.sub ⟨0, 3, 0⟩ ⟨0, 0, 0⟩) 2 = 1
    rw [Vec3.sub_zero3]
    unfold sd_sphere
    rw [hlen3]
    norm_num
  have hdB : mshapeDist (MShape.msphere ⟨0, 9, 0⟩ 1) ⟨0, 3, 0⟩ = 5 := by
    show sd_sphere (Vec3.sub ⟨0, 3, 0⟩ ⟨0, 9, 0⟩) 1 = 5
    rw [show Vec3.sub ⟨0, 3, 0⟩ ⟨0, 9, 0⟩ = (⟨0, -6, 0⟩ : Vec3) from by
      apply Vec3.eq_of_comps <;> (simp [Vec3.sub]; try norm_num)]
    unfold sd_sphere
    rw [hlen6]
    norm_num
  have hplane : sd_plane ⟨0, 3, 0⟩ ⟨0, 1, 0⟩ 0.5 = 3.5 := by
    unfold sd_plane Vec3.dot
    norm_num
  have hL : (evaluateModed
      [⟨MShape.msphere ⟨0, 0, 0⟩ 2, MAT_SPHERE, BlendMode.union, 1⟩,
       ⟨MShape.msphere ⟨0, 9, 0⟩ 1, MAT_SPHERE + 0.1, BlendMode.intersect, 1⟩] ⟨0, 3, 0⟩).1 =
      5 := by
    unfold evaluateModed
    rw [List.foldl_cons, List.foldl_cons, List.foldl_nil]
    rw [combineCSG_union _ _ ⟨MShape.msphere ⟨0, 0, 0⟩ 2, MAT_SPHERE, BlendMode.union, 1⟩ rfl,
      hdA, hplane]
    rw [if_pos (by norm_num)]
    rw [combineCSG_intersect _ _
      ⟨MShape.msphere ⟨0, 9, 0⟩ 1, MAT_SPHERE + 0.1, BlendMode.intersect, 1⟩ rfl, hdB]
    norm_num [op_intersect, max_def]
  have hR : (evaluateModed
      [⟨MShape.msphere ⟨0, 9, 0⟩ 1, MAT_SPHERE + 0.1, BlendMode.intersect, 1⟩,
       ⟨MShape.msphere ⟨0, 0, 0⟩ 2, MAT_SPHERE, BlendMode.union, 1⟩] ⟨0, 3, 0⟩).1 =
      1 := by
    unfold evaluateModed
    rw [List.foldl_cons, List.foldl_cons, List.foldl_nil]
    rw [combineCSG_intersect _ _
      ⟨MShape.msphere ⟨0, 9, 0⟩ 1, MAT_SPHERE + 0.1, BlendMode.intersect, 1⟩ rfl, hdB, hplane]
    rw [combineCSG_union _ _ ⟨MShape.msphere ⟨0, 0, 0⟩ 2, MAT_SPHERE, BlendMode.union, 1⟩ rfl,
      hdA]
    rw [if_pos (by norm_num [op_intersect, max_def])]
  rw [hL, hR]
  norm_num

/-- Claim C5 as amended: the evaluated distance depends only on the set of
active primitives, not their storage order, whenever the active primitives
all share the Union mode or all share the Intersect mode (homogeneous
modes); with Union and Intersect mixed in one scene the distance can
depend on storage order. -/
theorem evaluateModed_order_invariant (ps qs : List MPrim) (p : Vec3)
    (hperm : List.Perm ps qs)
    (hmode : (∀ q ∈ ps, q.mode = BlendMode.union) ∨
             (∀ q ∈ ps, q.mode = BlendMode.intersect)) :
    (evaluateModed ps p).1 = (evaluateModed qs p).1 := by
  rcases hmode with hu | hi
  · have key : ∀ (l : List MPrim) (acc : ℝ × ℝ), (∀ q ∈ l, q.mode = BlendMode.union) →
        (l.foldl (combineCSG p) acc).1 = l.foldl (fun d q => min d (mshapeDist q.shape p)) acc.1 := by
      intro l
      induction l with
      | nil => intro acc _; rfl
      | cons a l ih =>
        intro acc hl
        rw [List.foldl_cons, List.foldl_cons, ih _ (fun q hq => hl q (List.mem_cons_of_mem a hq)),
          combineCSG_union p acc a (hl a (List.mem_cons_self a l))]
        rcases lt_or_ge (mshapeDist a.shape p) acc.1 with h | h
        · rw [if_pos h, min_eq_right h.le]
        · rw [if_neg (not_lt.mpr h), min_eq_left h]
    unfold evaluateModed
    rw [key ps _ hu, key qs _ (fun q hq => hu q (hperm.mem_iff.mpr hq))]
    exact hperm.foldl_eq' (fun a _ b _ d =>
      min_right_comm d (mshapeDist a.shape p) (mshapeDist b.shape p)) _
  · have key : ∀ (l : List MPrim) (acc : ℝ × ℝ), (∀ q ∈ l, q.mode = BlendMode.intersect) →
        (l.foldl (combineCSG p) acc).1 = l.foldl (fun d q => max d (mshapeDist q.shape p)) acc.1 := by
      intro l
      induction l with
      | nil => intro acc _; rfl
      | cons a l ih =>
        intro acc hl
        rw [List.foldl_cons, List.foldl_cons, ih _ (fun q hq => hl q (List.mem_cons_of_mem a hq)),
          combineCSG_intersect p acc a (hl a (List.mem_cons_self a l))]
        rfl
    unfold evaluateModed
    rw [key ps _ hi, key qs _ (fun q hq => hi q (hperm.mem_iff.mpr hq))]
    exact hperm.foldl_eq' (fun a _ b _ d =>
      sup_right_comm d (mshapeDist a.shape p) (mshapeDist b.shape p)) _

/-- Witness for the amended C5: swapping two Union spheres does not change
the evaluated distance at a sample point. -/
theorem evaluateModed_order_invariant_witness :
    (evaluateModed
        [⟨MShape.msphere ⟨0, 0, 0⟩ 2, MAT_SPHERE, BlendMode.union, 1⟩,
         ⟨MShape.msphere ⟨0, 9, 0⟩ 1, MAT_SPHERE + 0.1, BlendMode.union, 1⟩] ⟨0, 3, 0⟩).1 =
    (evaluateModed
        [⟨MShape.msphere ⟨0, 9, 0⟩ 1, MAT_SPHERE + 0.1, BlendMode.union, 1⟩,
         ⟨MShape.msphere ⟨0, 0, 0⟩ 2, MAT_SPHERE, BlendMode.union, 1⟩] ⟨0, 3, 0⟩).1 :=
  evaluateModed_order_invariant _ _ _ (List.Perm.swap _ _ _)
    (Or.inl (by intro q hq; simp at hq; rcases hq with h | h <;> rw [h]))

-- C4.

/-- Counterexample to claim C4 as stated: a sphere of radius 1 at the
origin, marched from distance `d = 102` along the unit ray through the
origin (the plane never intervenes on this vertical ray): the march
accumulates `t = 101 = d - r`, but `t` exceeds `MAX_DIST`, so the result is
a miss, not a hit. -/
theorem ray_march_far_sphere_cex :
    ray_march (sceneOneSphere 1) ⟨0, 102, 0⟩ (Vec3.smul (-(1 / 102)) ⟨0, 102, 0⟩) =
      (101, MAT_SPHERE) ∧
    ¬ (ray_march (sceneOneSphere 1) ⟨0, 102, 0⟩ (Vec3.smul (-(1 / 102)) ⟨0, 102, 0⟩)).1 <
      MAX_DIST := by
  have hrdw : Vec3.smul (-(1 / 102)) ⟨0, 102, 0⟩ = (⟨0, -1, 0⟩ : Vec3) := by
    apply Vec3.eq_of_comps <;> (simp [Vec3.smul]; try norm_num)
  have hlen102 : Vec3.length ⟨0, 102, 0⟩ = 102 := by
    unfold Vec3.length Vec3.dot
    rw [show (0 : ℝ) * 0 + 102 * 102 + 0 * 0 = 102 ^ 2 by norm_num,
      Real.sqrt_sq (by norm_num : (0 : ℝ) ≤ 102)]
  have hlen2 : Vec3.length ⟨0, 2, 0⟩ = 2 := by
    unfold Vec3.length Vec3.dot
    rw [show (0 : ℝ) * 0 + 2 * 2 + 0 * 0 = 2 ^ 2 by norm_num,
      Real.sqrt_sq (by norm_num : (0 : ℝ) ≤ 2)]
  have hg1 : get_dist (sceneOneSphere 1) ⟨0, 102, 0⟩ = (100, -1) := by
    rw [get_dist_oneSphere_unfold, Vec3.sub_zero3]
    rw [show sd_sphere (⟨0, 102, 0⟩ : Vec3) 1 = 101 from by
      unfold sd_sphere; rw [hlen102]; norm_num]
    rw [show sd_plane (⟨0, 102, 0⟩ : Vec3) ⟨0, 1, 0⟩ 0.5 = 102.5 from by
      unfold sd_plane Vec3.dot; norm_num]
    rw [if_neg (show ¬ (102.5 : ℝ) < MAX_DIST from by norm_num [MAX_DIST])]
    rw [if_neg (show ¬ (101 : ℝ) < ((MAX_DIST : ℝ), (-1 : ℝ)).1 from by norm_num [MAX_DIST])]
    norm_num [MAX_DIST]
  have hg2 : get_dist (sceneOneSphere 1) ⟨0, 2, 0⟩ = (1, MAT_SPHERE) := by
    have hq : (Vec3.mk 0 2 0).length - 1 = 1 := by rw [hlen2]; norm_num
    rw [get_dist_oneSphere_sphereWins 1 ⟨0, 2, 0⟩
      (by rw [hlen2]; unfold sd_plane Vec3.dot; norm_num)
      (by rw [hlen2]; norm_num [MAX_DIST]), hq]
  have hp1 : Vec3.add ⟨0, 102, 0⟩ (Vec3.smul 0 ⟨0, -1, 0⟩) = (⟨0, 102, 0⟩ : Vec3) := by
    apply Vec3.eq_of_comps <;> simp [Vec3.add, Vec3.smul]
  have hp2 : Vec3.add ⟨0, 102, 0⟩ (Vec3.smul 100 ⟨0, -1, 0⟩) = (⟨0, 2, 0⟩ : Vec3) := by
    apply Vec3.eq_of_comps <;> (simp [Vec3.add, Vec3.smul]; try norm_num)
  have hmarch : ray_march (sceneOneSphere 1) ⟨0, 102, 0⟩ ⟨0, -1, 0⟩ = (101, MAT_SPHERE) := by
    unfold ray_march MAX_STEPS
    rw [show (256 : ℕ) = 255 + 1 from rfl,
      marchLoop_step_continue (sceneOneSphere 1) ⟨0, 102, 0⟩ ⟨0, -1, 0⟩ 255 0 (-1) 100 (-1)
        (by rw [hp1]; exact hg1) (by norm_num [SURF_DIST]) (by norm_num [MAX_DIST])]
    rw [show (0 : ℝ) + 100 = 100 from by norm_num]
    rw [show (255 : ℕ) = 254 + 1 from rfl,
      marchLoop_step_stop (sceneOneSphere 1) ⟨0, 102, 0⟩ ⟨0, -1, 0⟩ 254 100 (-1) 1 MAT_SPHERE
        (by rw [hp2]; exact hg2) (Or.inr (by norm_num [MAX_DIST]))]
    norm_num
  rw [hrdw, hmarch]
  refine ⟨rfl, ?_⟩
  norm_num [MAX_DIST]

/-- Claim C4 as amended: for a scene with exactly one sphere of radius
`r > 0` centered at the origin, marching from any origin at distance
`d > r` along the unit ray through the origin, PROVIDED the expected hit
distance `d - r` stays below `MAX_DIST` and the ground plane stays strictly
farther than the sphere along the ray, returns a hit at exactly
`t = d - r`, hence within `SURF_DIST` of it and below `MAX_DIST`. -/
theorem ray_march_sphere_hit (r d : ℝ) (ro : Vec3)
    (hr : 0 < r) (hrd : r < d) (hmax : d - r < MAX_DIST)
    (hlen : ro.length = d)
    (hplane : ∀ t : ℝ, 0 ≤ t → t ≤ d - r →
      d - t - r < sd_plane (ro.add (Vec3.smul t (Vec3.smul (-(1 / d)) ro))) ⟨0, 1, 0⟩ 0.5) :
    ray_march (sceneOneSphere r) ro (Vec3.smul (-(1 / d)) ro) = (d - r, MAT_SPHERE) ∧
    (ray_march (sceneOneSphere r) ro (Vec3.smul (-(1 / d)) ro)).1 < MAX_DIST ∧
    |(ray_march (sceneOneSphere r) ro (Vec3.smul (-(1 / d)) ro)).1 - (d - r)| ≤ SURF_DIST := by
  have hd : (0 : ℝ) < d := hr.trans hrd
  have hpt : ∀ t : ℝ, ro.add (Vec3.smul t (Vec3.smul (-(1 / d)) ro)) =
      Vec3.smul (1 - t / d) ro := by
    intro t
    apply Vec3.eq_of_comps <;> (simp [Vec3.add, Vec3.smul]; ring)
  have hlenpt : ∀ t : ℝ, 0 ≤ t → t ≤ d →
      (ro.add (Vec3.smul t (Vec3.smul (-(1 / d)) ro))).length = d - t := by
    intro t ht0 htd
    rw [hpt t, Vec3.length_smul, hlen,
      abs_of_nonneg (by have := (div_le_one hd).mpr htd; linarith)]
    field_simp
  have hq0 : get_dist (sceneOneSphere r) (ro.add (Vec3.smul 0 (Vec3.smul (-(1 / d)) ro))) =
      (d - r, MAT_SPHERE) := by
    have e0 : (ro.add (Vec3.smul 0 (Vec3.smul (-(1 / d)) ro))).length = d := by
      rw [hlenpt 0 le_rfl hd.le]; ring
    have hpl := hplane 0 le_rfl (by linarith)
    rw [get_dist_oneSphere_sphereWins r (ro.add (Vec3.smul 0 (Vec3.smul (-(1 / d)) ro)))
      (by rw [e0]; linarith) (by rw [e0]; linarith), e0]
  have hq1 : get_dist (sceneOneSphere r) (ro.add (Vec3.smul (d - r) (Vec3.smul (-(1 / d)) ro))) =
      (0, MAT_SPHERE) := by
    have e1 : (ro.add (Vec3.smul (d - r) (Vec3.smul (-(1 / d)) ro))).length = r := by
      rw [hlenpt (d - r) (by linarith) (by linarith)]; ring
    have hpl := hplane (d - r) (by linarith) le_rfl
    have h100 : (0 : ℝ) < MAX_DIST := by norm_num [MAX_DIST]
    rw [get_dist_oneSphere_sphereWins r
      (ro.add (Vec3.smul (d - r) (Vec3.smul (-(1 / d)) ro)))
      (by rw [e1]; linarith) (by rw [e1]; linarith), e1, sub_self]
  have hfinal : ray_march (sceneOneSphere r) ro (Vec3.smul (-(1 / d)) ro) =
      (d - r, MAT_SPHERE) := by
    unfold ray_march MAX_STEPS
    by_cases hsmall : d - r < SURF_DIST
    · rw [show (256 : ℕ) = 255 + 1 from rfl,
        marchLoop_step_stop (sceneOneSphere r) ro (Vec3.smul (-(1 / d)) ro) 255 0 (-1)
          (d - r) MAT_SPHERE hq0 (Or.inl hsmall), zero_add]
    · rw [show (256 : ℕ) = 255 + 1 from rfl,
        marchLoop_step_continue (sceneOneSphere r) ro (Vec3.smul (-(1 / d)) ro) 255 0 (-1)
          (d - r) MAT_SPHERE hq0 hsmall (by push_neg; linarith), zero_add]
      rw [show (255 : ℕ) = 254 + 1 from rfl,
        marchLoop_step_stop (sceneOneSphere r) ro (Vec3.smul (-(1 / d)) ro) 254 (d - r)
          MAT_SPHERE 0 MAT_SPHERE hq1 (Or.inl (by norm_num [SURF_DIST])), add_zero]
  refine ⟨hfinal, ?_, ?_⟩
  · rw [hfinal]; exact hmax
  · rw [hfinal]
    simp only [sub_self, abs_zero]
    norm_num [SURF_DIST]

/-- Witness for the amended C4: the sphere of radius 1 marched from
`(0, 4, 0)` (distance 4) along the downward unit ray is hit at exactly
`t = 3 = d - r`. -/
theorem ray_march_sphere_hit_witness :
    ray_march (sceneOneSphere 1) ⟨0, 4, 0⟩ (Vec3.smul (-(1 / 4)) ⟨0, 4, 0⟩) =
      (3, MAT_SPHERE) := by
  have hlen4 : Vec3.length ⟨0, 4, 0⟩ = 4 := by
    unfold Vec3.length Vec3.dot
    rw [show (0 : ℝ) * 0 + 4 * 4 + 0 * 0 = 4 ^ 2 by norm_num,
      Real.sqrt_sq (by norm_num : (0 : ℝ) ≤ 4)]
  have hplane : ∀ t : ℝ, 0 ≤ t → t ≤ 4 - 1 →
      4 - t - 1 < sd_plane ((Vec3.mk 0 4 0).add
        (Vec3.smul t (Vec3.smul (-(1 / 4)) ⟨0, 4, 0⟩))) ⟨0, 1, 0⟩ 0.5 := by
    intro t ht0 ht3
    simp [Vec3.add, Vec3.smul, sd_plane, Vec3.dot]
    linarith
  have h := (ray_march_sphere_hit 1 4 ⟨0, 4, 0⟩ (by norm_num) (by norm_num)
    (by norm_num [MAX_DIST]) hlen4 hplane).1
  rw [h]
  norm_num

